import Mathlib

/-!
Verification of the RackHD docker-machine driver (`src/rackhd.go`).

The Go code is shallowly embedded: the `Driver` struct becomes a Lean
structure, methods with a pointer receiver become explicit state-passing
functions `Driver → Driver × result`, and the effects of `Create`
(the inventory lookup over HTTP, the TCP reachability probes, local SSH
key generation, and remote SSH command execution) are parameterised by an
`Env` of oracles.  `Create` additionally returns a `CreateTrace` recording
the candidate IP list it built, the probes it attempted, whether it called
`createSSHKey`, and the SSH commands it handed to `executeSSHCommand`,
in order.
-/

namespace RackHD

/-- The `Driver` struct of `rackhd.go` (including the embedded
`drivers.BaseDriver` fields the code uses: `IPAddress`, `MachineName`,
`StorePath`; `SSHUser`/`SSHPort` of the base driver are shadowed by the
driver's own fields in the Go code, so a single copy is kept). -/
structure Driver where
  Endpoint : String
  NodeID : String
  SSHUser : String
  SSHPassword : String
  SSHPort : Nat
  SSHKey : String
  Transport : String
  IPAddress : String
  MachineName : String
  StorePath : String
deriving Repr, DecidableEq

def defaultEndpoint : String := "localhost:8080"

def defaultTransport : String := "http"

def defaultSSHUser : String := "root"

def defaultSSHPassword : String := "root"

def defaultSSHPort : Nat := 22

/-- `NewDriver` from `rackhd.go`: fields not assigned in the Go composite
literal are zero-valued (empty strings). -/
def NewDriver (hostName storePath : String) : Driver :=
  { Endpoint := defaultEndpoint
    NodeID := ""
    SSHUser := defaultSSHUser
    SSHPassword := defaultSSHPassword
    SSHPort := defaultSSHPort
    SSHKey := ""
    Transport := defaultTransport
    IPAddress := ""
    MachineName := hostName
    StorePath := storePath }

/-- The subset of `drivers.DriverOptions` the driver reads in
`SetConfigFromFlags` (one field per flag name). -/
structure DriverOptions where
  rackhdEndpoint : String
  rackhdNodeId : String
  rackhdTransport : String
  rackhdSshUser : String
  rackhdSshPassword : String
  rackhdSshPort : Nat
deriving Repr, DecidableEq

/-- `SetConfigFromFlags` from `rackhd.go`, as a state transformer.  The Go
method mutates the receiver field by field and returns early with an error
when the node id flag is empty; the returned `Option String` is the Go
`error` (`none` = `nil`). -/
def SetConfigFromFlags (d : Driver) (flags : DriverOptions) : Driver × Option String :=
  let d := { d with Endpoint := flags.rackhdEndpoint }
  let d := { d with NodeID := flags.rackhdNodeId }
  if d.NodeID = "" then
    (d, some "rackhd driver requires the --rackhd-node-id option")
  else
    let d := { d with SSHUser := flags.rackhdSshUser }
    let d := { d with SSHPassword := flags.rackhdSshPassword }
    let d := { d with SSHPort := flags.rackhdSshPort }
    let d :=
      if d.SSHPort = 443 then { d with Transport := "https" }
      else { d with Transport := flags.rackhdTransport }
    (d, none)

/-- `GetIP` from `rackhd.go`: error when the IP address field is unset. -/
def GetIP (d : Driver) : Except String String :=
  if d.IPAddress = "" then Except.error "IP address is not set"
  else Except.ok d.IPAddress

/-- `GetURL` from `rackhd.go`: `fmt.Sprintf("tcp://%s:2376", ip)` on the
IP returned by `GetIP`, propagating its error. -/
def GetURL (d : Driver) : Except String String :=
  match GetIP d with
  | Except.error e => Except.error e
  | Except.ok ip => Except.ok ("tcp://" ++ ip ++ ":2376")

/-- The `state.State` enumeration of libmachine (the Go driver only ever
produces `Running`). -/
inductive MachineState where
  | None
  | Running
  | Paused
  | Saved
  | Stopped
  | Stopping
  | Starting
  | Error
deriving Repr, DecidableEq

/-- `GetState` from `rackhd.go` as a state transformer: the body is a
stub returning `state.Running, nil` without touching the receiver. -/
def GetState (d : Driver) : Driver × MachineState × Option String :=
  (d, MachineState.Running, none)

/-- `Start` from `rackhd.go`: stub returning `nil`. -/
def Start (d : Driver) : Driver × Option String :=
  (d, none)

/-- `Stop` from `rackhd.go`: stub returning `nil`. -/
def Stop (d : Driver) : Driver × Option String :=
  (d, none)

/-- `Remove` from `rackhd.go`: stub returning `nil`. -/
def Remove (d : Driver) : Driver × Option String :=
  (d, none)

/-- `Restart` from `rackhd.go`: stub returning `nil`. -/
def Restart (d : Driver) : Driver × Option String :=
  (d, none)

/-- `Kill` from `rackhd.go`: stub returning `nil`. -/
def Kill (d : Driver) : Driver × Option String :=
  (d, none)

/-- `GetIP` as a state transformer (the Go method reads but never writes
the receiver). -/
def GetIPM (d : Driver) : Driver × Except String String :=
  (d, GetIP d)

/-- `GetURL` as a state transformer (the Go method reads but never writes
the receiver). -/
def GetURLM (d : Driver) : Driver × Except String String :=
  (d, GetURL d)

/-- `GetSSHHostname` from `rackhd.go`: delegates to `GetIP`. -/
def GetSSHHostnameM (d : Driver) : Driver × Except String String :=
  (d, GetIP d)

/-- `GetSSHUsername` from `rackhd.go`: the one lifecycle getter that does
write the receiver (it defaults an empty `SSHUser` to `"root"`). -/
def GetSSHUsernameM (d : Driver) : Driver × String :=
  if d.SSHUser = "" then ({ d with SSHUser := "root" }, "root")
  else (d, d.SSHUser)

/-- `GetMachineName` from `rackhd.go`. -/
def GetMachineName (d : Driver) : String :=
  d.MachineName

/-- `DriverName` from `rackhd.go`. -/
def DriverName (_d : Driver) : String :=
  "rackhd"

/-- One entry of the lookup response payload (`resp.Payload` in the Go
code, a `[]interface{}`).  `some rec` models an entry whose dynamic type
is `map[string]interface{}` — an association list of attribute keys to
string values (the code asserts the `ipAddress` value to `string`; a Go
map has each key at most once, and since only the `"ipAddress"` key is
read, the list order of the other keys is irrelevant).  `none` models an
entry of any other dynamic type, which the type switch in `Create`
skips. -/
abbrev Record := Option (List (String × String))

/-- Body of the outer extraction loop of `Create` (`rackhd.go` lines
177–186): for a payload entry that is a map, run the inner loop over its
key/value pairs, appending the value of every key equal to
`"ipAddress"`; skip any other entry (the failed type assertion). -/
def recStep (acc : List String) (v : Record) : List String :=
  match v with
  | some rec =>
      rec.foldl
        (fun acc2 kv => if kv.1 = "ipAddress" then acc2 ++ [kv.2] else acc2)
        acc
  | none => acc

/-- The IP-extraction loops of `Create` (`rackhd.go` lines 174–186):
start from an empty slice and fold `recStep` over the payload. -/
def extractIPs (payload : List Record) : List String :=
  payload.foldl recStep []

/-- Modelled from the spec's words (§8, first testable property): the
`ipAddress` values found in the records, in discovery order across
records, without deduplication and with no filtering beyond the attribute
key match.  Stated independently of `extractIPs` so the two can be
compared. -/
def specIPValues (payload : List Record) : List String :=
  payload.flatMap fun r =>
    (r.getD []).filterMap fun kv =>
      if kv.1 = "ipAddress" then some kv.2 else none

/-- The probe loop of `Create` (`rackhd.go` lines 194–206): walk the
candidate list in order, dial `ip ++ ":" ++ port`; on the first success
assign the candidate to `d.IPAddress` and `break` (never dialing the
rest); on failure keep the prior `IPAddress` value `ip0`.  Returns the
resulting `IPAddress` value and the list of candidates dialed, in
order. -/
def probeLoop (ip0 : String) (ips : List String) (port : Nat)
    (reachable : String → Bool) : String × List String :=
  match ips with
  | [] => (ip0, [])
  | ip :: rest =>
      if reachable (ip ++ ":" ++ toString port) then (ip, [ip])
      else
        let r := probeLoop ip0 rest port reachable
        (r.1, ip :: r.2)

/-- `strings.TrimSpace` from the Go standard library, applied to the
public key text (`rackhd.go` line 218): drop leading and trailing
whitespace characters. -/
def trimSpace (s : String) : String :=
  ⟨((s.data.dropWhile Char.isWhitespace).reverse.dropWhile Char.isWhitespace).reverse⟩

/-- The first remote bootstrap command (`rackhd.go` line 223):
`fmt.Sprintf("mkdir -p /home/%s/.ssh", d.SSHUser)`. -/
def mkdirCmd (u : String) : String :=
  "mkdir -p /home/" ++ u ++ "/.ssh"

/-- The second remote bootstrap command (`rackhd.go` line 227):
`fmt.Sprintf("echo '%v' > /home/%s/.ssh/authorized_keys", d.SSHKey, d.SSHUser)`. -/
def authKeysCmd (key u : String) : String :=
  "echo '" ++ key ++ "' > /home/" ++ u ++ "/.ssh/authorized_keys"

/-- The third remote bootstrap command (`rackhd.go` line 231):
`fmt.Sprintf("chmod 700 /home/%s/.ssh", d.SSHUser)`. -/
def chmod700Cmd (u : String) : String :=
  "chmod 700 /home/" ++ u ++ "/.ssh"

/-- The fourth remote bootstrap command (`rackhd.go` line 235):
`fmt.Sprintf("chmod 600 /home/%s/.ssh/authorized_keys", d.SSHUser)`. -/
def chmod600Cmd (u : String) : String :=
  "chmod 600 /home/" ++ u ++ "/.ssh/authorized_keys"

/-- The four remote bootstrap commands in the order `Create` issues
them. -/
def sshCmds (key u : String) : List String :=
  [mkdirCmd u, authKeysCmd key u, chmod700Cmd u, chmod600Cmd u]

/-- The distinct error return sites of `Create` (`rackhd.go`):
`lookup` = line 170 (`return err` from `GetLookups`); `noAddresses` =
line 190; `unreachable` = line 209; `keyGen` = line 216 (`return err`
from `createSSHKey`); `ssh` = lines 224/228/232/236, each a bare
`return err` of the error produced by `executeSSHCommand`, carried
verbatim with no indication of which command failed. -/
inductive CreateError where
  | lookup (e : String)
  | noAddresses
  | unreachable
  | keyGen (e : String)
  | ssh (e : String)
deriving Repr, DecidableEq

/-- Observable trace of one `Create` run: the candidate IP slice built
from the lookup payload, the candidates dialed by the probe loop in
order, whether `createSSHKey` was called, and the commands passed to
`executeSSHCommand` in order. -/
structure CreateTrace where
  candidates : List String
  probed : List String
  keyGenCalled : Bool
  sshCommands : List String
deriving Repr, DecidableEq

/-- Oracles for the effects of `Create`: the result of
`client.Lookups.GetLookups`, the success of a bounded TCP dial to a given
`ip:port` string, the result of `createSSHKey` (the public key text on
success), and the result of `executeSSHCommand` on a given command
(`none` = success, `some e` = the error `e`). -/
structure Env where
  lookupResult : Except String (List Record)
  reachable : String → Bool
  sshKeyGen : Except String String
  sshExec : String → Option String

/-- The four sequential guarded `executeSSHCommand` calls at the end of
`Create` (`rackhd.go` lines 221–237): each command runs only if every
earlier one succeeded, and the first failure is returned as-is.  Also
returns the commands issued, in order. -/
def sshPhase (d : Driver) (exec : String → Option String) :
    Option CreateError × List String :=
  match exec (mkdirCmd d.SSHUser) with
  | some e => (some (CreateError.ssh e), [mkdirCmd d.SSHUser])
  | none =>
      match exec (authKeysCmd d.SSHKey d.SSHUser) with
      | some e =>
          (some (CreateError.ssh e), [mkdirCmd d.SSHUser, authKeysCmd d.SSHKey d.SSHUser])
      | none =>
          match exec (chmod700Cmd d.SSHUser) with
          | some e =>
              (some (CreateError.ssh e),
                [mkdirCmd d.SSHUser, authKeysCmd d.SSHKey d.SSHUser, chmod700Cmd d.SSHUser])
          | none =>
              match exec (chmod600Cmd d.SSHUser) with
              | some e => (some (CreateError.ssh e), sshCmds d.SSHKey d.SSHUser)
              | none => (none, sshCmds d.SSHKey d.SSHUser)

/-- `Create` from `rackhd.go` (lines 163–240), with its effects drawn
from `env`: look up the node, build the candidate IP slice, fail when it
is empty, probe the candidates in order (first success wins and is
assigned to `IPAddress`), fail when `IPAddress` is still empty, generate
the SSH key (`strings.TrimSpace` applied to the public key text), then
run the four bootstrap commands via `sshPhase`. -/
def Create (d : Driver) (env : Env) : Driver × Option CreateError × CreateTrace :=
  match env.lookupResult with
  | Except.error e => (d, some (CreateError.lookup e), ⟨[], [], false, []⟩)
  | Except.ok payload =>
      let ipAddSlice := extractIPs payload
      if ipAddSlice.length ≤ 0 then
        (d, some CreateError.noAddresses, ⟨ipAddSlice, [], false, []⟩)
      else
        let pr := probeLoop d.IPAddress ipAddSlice d.SSHPort env.reachable
        let d1 := { d with IPAddress := pr.1 }
        if d1.IPAddress = "" then
          (d1, some CreateError.unreachable, ⟨ipAddSlice, pr.2, false, []⟩)
        else
          match env.sshKeyGen with
          | Except.error e =>
              (d1, some (CreateError.keyGen e), ⟨ipAddSlice, pr.2, true, []⟩)
          | Except.ok key =>
              let d2 := { d1 with SSHKey := trimSpace key }
              let s := sshPhase d2 env.sshExec
              (d2, s.1, ⟨ipAddSlice, pr.2, true, s.2⟩)

/-- `exec (cmds.getD j "") = none` for every `j < i`, and
`exec (cmds.getD i "") = some e`: the `i`-th command (0-based) is the
first one to fail, with error `e`. -/
def failsFirstAt (exec : String → Option String) (cmds : List String)
    (i : Nat) (e : String) : Prop :=
  (∀ j, j < i → exec (cmds.getD j "") = none) ∧ exec (cmds.getD i "") = some e

/-! Concrete inputs used by the witnesses and the counterexample. -/

/-- A freshly constructed driver, as the host runtime builds it before
`Create` runs. -/
def d0 : Driver := NewDriver "rackhd-test" "/tmp/machine"

/-- A lookup payload with one record carrying an `ipAddress`. -/
def payloadOne : List Record := [some [("ipAddress", "10.0.0.5")]]

/-- A lookup payload with three `ipAddress` records, one map record
without the attribute and one non-map entry interleaved. -/
def payloadABC : List Record :=
  [some [("ipAddress", "10.31.128.1")],
   some [("macAddress", "aa:bb:cc:dd:ee:ff")],
   some [("ipAddress", "10.31.128.2")],
   none,
   some [("ipAddress", "10.31.128.3")]]

/-- A lookup payload repeating the same `ipAddress` value twice,
with records lacking the attribute in between. -/
def payloadDup : List Record :=
  [some [("ipAddress", "10.0.0.5")], none,
   some [("macAddress", "de:ad:be:ef:00:01")],
   some [("ipAddress", "10.0.0.5")]]

/-- A lookup payload whose records carry no `ipAddress` attribute at
all. -/
def payloadNoIP : List Record :=
  [none, some [("macAddress", "aa:bb:cc:dd:ee:ff")]]

/-- Environment where only the second candidate of `payloadABC` accepts
the TCP probe and everything afterwards succeeds. -/
def envProbeSecond : Env :=
  { lookupResult := Except.ok payloadABC
    reachable := fun s => s == "10.31.128.2:22"
    sshKeyGen := Except.ok "ssh-rsa AAAATEST"
    sshExec := fun _ => none }

/-- Environment where no candidate accepts the TCP probe. -/
def envAllDown : Env :=
  { lookupResult := Except.ok payloadABC
    reachable := fun _ => false
    sshKeyGen := Except.ok "ssh-rsa AAAATEST"
    sshExec := fun _ => none }

/-- Environment whose lookup returns `payloadDup`; nothing is
reachable. -/
def envLookupDup : Env :=
  { lookupResult := Except.ok payloadDup
    reachable := fun _ => false
    sshKeyGen := Except.ok "ssh-rsa AAAATEST"
    sshExec := fun _ => none }

/-- Environment whose lookup returns records without any `ipAddress`. -/
def envNoIP : Env :=
  { lookupResult := Except.ok payloadNoIP
    reachable := fun _ => true
    sshKeyGen := Except.ok "ssh-rsa AAAATEST"
    sshExec := fun _ => none }

/-- Environment where the first remote bootstrap command (mkdir) fails
with a shell error. -/
def envStep1Fails : Env :=
  { lookupResult := Except.ok payloadOne
    reachable := fun _ => true
    sshKeyGen := Except.ok "ssh-rsa AAAATEST"
    sshExec := fun c =>
      if c == mkdirCmd "root" then some "Process exited with status 1" else none }

/-- Environment where the second remote bootstrap command (the
authorized_keys write) fails with the same shell error as
`envStep1Fails`. -/
def envStep2Fails : Env :=
  { lookupResult := Except.ok payloadOne
    reachable := fun _ => true
    sshKeyGen := Except.ok "ssh-rsa AAAATEST"
    sshExec := fun c =>
      if c == authKeysCmd "ssh-rsa AAAATEST" "root" then some "Process exited with status 1"
      else none }

/-- Flags with SSH port 443 but transport flag `"http"`. -/
def flags443 : DriverOptions :=
  { rackhdEndpoint := "rackhd.example.com:8080"
    rackhdNodeId := "56e967f5b7a4085407da7898"
    rackhdTransport := "http"
    rackhdSshUser := "root"
    rackhdSshPassword := "root"
    rackhdSshPort := 443 }

/-- Flags with an empty node id (the required flag is missing). -/
def flagsNoNode : DriverOptions :=
  { rackhdEndpoint := "rackhd.example.com:8080"
    rackhdNodeId := ""
    rackhdTransport := "https"
    rackhdSshUser := "ubuntu"
    rackhdSshPassword := "secret"
    rackhdSshPort := 2022 }

/-! Helper lemmas. -/

/-- The inner attribute loop of `Create`, run from any accumulator,
appends exactly the values of the `"ipAddress"` keys of the record, in
record order. -/
theorem record_foldl_append (rec : List (String × String)) (acc : List String) :
    rec.foldl (fun acc2 kv => if kv.1 = "ipAddress" then acc2 ++ [kv.2] else acc2) acc
      = acc ++ rec.filterMap (fun kv => if kv.1 = "ipAddress" then some kv.2 else none) := by
  induction rec generalizing acc with
  | nil => simp
  | cons kv t ih =>
      by_cases h : kv.1 = "ipAddress" <;> simp [h, ih]

/-- The outer payload loop of `Create`, run from any accumulator,
appends exactly `specIPValues payload`. -/
theorem extractIPs_foldl (payload : List Record) (acc : List String) :
    payload.foldl recStep acc = acc ++ specIPValues payload := by
  induction payload generalizing acc with
  | nil => simp [specIPValues]
  | cons r t ih =>
      rw [List.foldl_cons, ih]
      cases r with
      | none => simp [recStep, specIPValues, List.flatMap_cons]
      | some rec =>
          simp [recStep, record_foldl_append, specIPValues, List.flatMap_cons]

/-- The candidate slice `Create` builds coincides with the
specification-side extraction. -/
theorem extractIPs_eq_specIPValues (payload : List Record) :
    extractIPs payload = specIPValues payload := by
  simpa [extractIPs] using extractIPs_foldl payload []

/-- When no candidate is reachable, the probe loop dials every candidate
in order and leaves the prior `IPAddress` value in place. -/
theorem probeLoop_all_fail (ip0 : String) (ips : List String) (port : Nat)
    (r : String → Bool)
    (h : ∀ ip ∈ ips, r (ip ++ ":" ++ toString port) = false) :
    probeLoop ip0 ips port r = (ip0, ips) := by
  induction ips with
  | nil => simp [probeLoop]
  | cons a t ih =>
      have ha := h a (List.mem_cons_self a t)
      have ht : ∀ ip ∈ t, r (ip ++ ":" ++ toString port) = false :=
        fun ip hip => h ip (List.mem_cons_of_mem a hip)
      simp [probeLoop, ha, ih ht]

/-- Reduction of `Create` on the fully resolved path: lookup succeeded,
the candidate slice is non-empty, the probe produced a non-empty
`IPAddress`, and key generation succeeded. -/
theorem Create_resolved (d : Driver) (env : Env) (payload : List Record) (key : String)
    (h1 : env.lookupResult = Except.ok payload)
    (hne : extractIPs payload ≠ [])
    (hsel : (probeLoop d.IPAddress (extractIPs payload) d.SSHPort env.reachable).1 ≠ "")
    (hkey : env.sshKeyGen = Except.ok key) :
    Create d env =
      (let pr := probeLoop d.IPAddress (extractIPs payload) d.SSHPort env.reachable
       let d2 : Driver := { d with IPAddress := pr.1, SSHKey := trimSpace key }
       let s := sshPhase d2 env.sshExec
       (d2, s.1, ⟨extractIPs payload, pr.2, true, s.2⟩)) := by
  have hlen : ¬ (extractIPs payload).length ≤ 0 := by
    simpa [Nat.le_zero, List.length_eq_zero] using hne
  simp only [Create, h1, hlen, if_false, hkey, hsel, ite_false]

/-- If the `i`-th of the four bootstrap commands is the first to fail
(with error `e`), the SSH phase issues exactly the first `i + 1`
commands and surfaces `e` verbatim. -/
theorem sshPhase_fail (d : Driver) (exec : String → Option String) (i : Nat) (e : String)
    (hi : i < 4)
    (hfail : failsFirstAt exec (sshCmds d.SSHKey d.SSHUser) i e) :
    sshPhase d exec
      = (some (CreateError.ssh e), (sshCmds d.SSHKey d.SSHUser).take (i + 1)) := by
  obtain ⟨hprev, hcur⟩ := hfail
  interval_cases i
  · simp only [sshCmds, List.getD_cons_zero] at hcur
    simp [sshPhase, hcur, sshCmds]
  · have h0 := hprev 0 (by omega)
    simp only [sshCmds, List.getD_cons_zero, List.getD_cons_succ] at hcur h0
    simp [sshPhase, h0, hcur, sshCmds]
  · have h0 := hprev 0 (by omega)
    have h1 := hprev 1 (by omega)
    simp only [sshCmds, List.getD_cons_zero, List.getD_cons_succ] at hcur h0 h1
    simp [sshPhase, h0, h1, hcur, sshCmds]
  · have h0 := hprev 0 (by omega)
    have h1 := hprev 1 (by omega)
    have h2 := hprev 2 (by omega)
    simp only [sshCmds, List.getD_cons_zero, List.getD_cons_succ] at hcur h0 h1 h2
    simp [sshPhase, h0, h1, h2, hcur, sshCmds]

/-! Claim theorems. -/

/-- C1 (counterexample): the claim says the error surfaced when a remote
bootstrap command fails identifies the failing step (for the second
command, the write step) and wraps the underlying shell error.  In the
code each of the four call sites does a bare `return err`: with the same
underlying shell error, a run whose first (mkdir) command fails and a
run whose second (authorized_keys write) command fails return the very
same error value, which is the underlying error verbatim — so the
returned error cannot identify the failing step. -/
theorem create_ssh_error_does_not_identify_step_cex :
    (Create d0 envStep2Fails).2.2.sshCommands
        = [mkdirCmd "root", authKeysCmd "ssh-rsa AAAATEST" "root"] ∧
    (Create d0 envStep2Fails).2.1
        = some (CreateError.ssh "Process exited with status 1") ∧
    (Create d0 envStep1Fails).2.2.sshCommands = [mkdirCmd "root"] ∧
    (Create d0 envStep1Fails).2.1 = (Create d0 envStep2Fails).2.1 := by
  refine ⟨?_, ?_, ?_, ?_⟩ <;> rfl

/-- C1 (amended): the four remote bootstrap commands execute in the
fixed order mkdir → write authorized_keys → chmod 700 → chmod 600; if
the `i`-th command is the first to fail, the later commands do not
execute (exactly the first `i + 1` commands are issued) and `Create`
returns the underlying shell error verbatim, without wrapping it or
identifying the failing step. -/
theorem create_ssh_fixed_order_fail_fast_raw_error
    (d : Driver) (env : Env) (payload : List Record) (key e : String) (i : Nat)
    (h1 : env.lookupResult = Except.ok payload)
    (hne : extractIPs payload ≠ [])
    (hsel : (probeLoop d.IPAddress (extractIPs payload) d.SSHPort env.reachable).1 ≠ "")
    (hkey : env.sshKeyGen = Except.ok key)
    (hi : i < 4)
    (hfail : failsFirstAt env.sshExec (sshCmds (trimSpace key) d.SSHUser) i e) :
    (Create d env).2.1 = some (CreateError.ssh e) ∧
    (Create d env).2.2.sshCommands = (sshCmds (trimSpace key) d.SSHUser).take (i + 1) := by
  rw [Create_resolved d env payload key h1 hne hsel hkey]
  have hs := sshPhase_fail
    { d with
        IPAddress := (probeLoop d.IPAddress (extractIPs payload) d.SSHPort env.reachable).1,
        SSHKey := trimSpace key }
    env.sshExec i e hi hfail
  simp [hs]

/-- C1 (witness for the amended theorem): in `envStep2Fails` the write
command is the first to fail, after one successful mkdir, and `Create`
surfaces the raw shell error with exactly the first two commands
issued. -/
theorem create_ssh_fixed_order_fail_fast_raw_error_witness :
    (Create d0 envStep2Fails).2.1
        = some (CreateError.ssh "Process exited with status 1") ∧
    (Create d0 envStep2Fails).2.2.sshCommands
        = (sshCmds "ssh-rsa AAAATEST" "root").take 2 := by
  have h := create_ssh_fixed_order_fail_fast_raw_error d0 envStep2Fails payloadOne
    "ssh-rsa AAAATEST" "Process exited with status 1" 1 rfl
    (by decide) (by decide) rfl (by omega)
    (by
      constructor
      · intro j hj
        interval_cases j
        rfl
      · rfl)
  exact h

/-- C2: whenever the lookup succeeds, the candidate IP list `Create`
builds is exactly the list of `ipAddress` attribute values of the
payload, in first-seen order across records, without deduplication and
with no filtering beyond the attribute key match. -/
theorem create_candidates_exact_ip_values (d : Driver) (env : Env) (payload : List Record)
    (h1 : env.lookupResult = Except.ok payload) :
    (Create d env).2.2.candidates = specIPValues payload := by
  rw [← extractIPs_eq_specIPValues payload]
  unfold Create
  rw [h1]
  dsimp only
  split
  · rfl
  · split
    · rfl
    · split <;> rfl

/-- C2 (witness): the duplicated `10.0.0.5` is kept twice, records
without the attribute contribute nothing, and order is preserved. -/
theorem create_candidates_exact_ip_values_witness :
    (Create d0 envLookupDup).2.2.candidates = ["10.0.0.5", "10.0.0.5"] :=
  (create_candidates_exact_ip_values d0 envLookupDup payloadDup rfl).trans rfl

/-- C3: with candidates `[a, b, c]` where `a` refuses and `b` accepts
the TCP probe, `Create` assigns `b` as the resolved IP and dials exactly
`a` then `b`, never `c`. -/
theorem create_selects_first_reachable (d : Driver) (env : Env) (payload : List Record)
    (a b c : String)
    (h1 : env.lookupResult = Except.ok payload)
    (h2 : extractIPs payload = [a, b, c])
    (ha : env.reachable (a ++ ":" ++ toString d.SSHPort) = false)
    (hb : env.reachable (b ++ ":" ++ toString d.SSHPort) = true) :
    (Create d env).1.IPAddress = b ∧ (Create d env).2.2.probed = [a, b] := by
  have hpr : probeLoop d.IPAddress (extractIPs payload) d.SSHPort env.reachable
      = (b, [a, b]) := by
    rw [h2]
    simp [probeLoop, ha, hb]
  have hlen : ¬ (extractIPs payload).length ≤ 0 := by
    rw [h2]; simp
  unfold Create
  rw [h1]
  simp only [hlen, if_false, hpr]
  by_cases hbe : b = ""
  · simp [hbe]
  · cases hk : env.sshKeyGen <;> simp [hbe, hk]

/-- C3 (witness): of the three candidates of `payloadABC` only the
second, `10.31.128.2`, accepts the probe on port 22; it is selected and
the third candidate is never dialed. -/
theorem create_selects_first_reachable_witness :
    (Create d0 envProbeSecond).1.IPAddress = "10.31.128.2" ∧
    (Create d0 envProbeSecond).2.2.probed = ["10.31.128.1", "10.31.128.2"] :=
  create_selects_first_reachable d0 envProbeSecond payloadABC
    "10.31.128.1" "10.31.128.2" "10.31.128.3" rfl rfl rfl rfl

/-- C4: starting from a driver whose `IPAddress` is unset (as `NewDriver`
builds it), when every candidate fails the TCP probe, `Create` dials each
candidate exactly once in list order, returns the unreachable error, and
neither calls `createSSHKey` nor issues any remote command. -/
theorem create_all_unreachable (d : Driver) (env : Env) (payload : List Record)
    (h1 : env.lookupResult = Except.ok payload)
    (hne : extractIPs payload ≠ [])
    (hd : d.IPAddress = "")
    (hall : ∀ ip ∈ extractIPs payload,
      env.reachable (ip ++ ":" ++ toString d.SSHPort) = false) :
    (Create d env).2.1 = some CreateError.unreachable ∧
    (Create d env).2.2.probed = extractIPs payload ∧
    (Create d env).2.2.keyGenCalled = false ∧
    (Create d env).2.2.sshCommands = [] := by
  have hpr : probeLoop d.IPAddress (extractIPs payload) d.SSHPort env.reachable
      = ("", extractIPs payload) := by
    rw [probeLoop_all_fail d.IPAddress (extractIPs payload) d.SSHPort env.reachable hall,
      hd]
  simp [Create, h1, hpr, hne]

/-- C4 (witness): with all three candidates of `payloadABC` down,
`Create` probes all of them in order and fails unreachable without any
key generation or remote command. -/
theorem create_all_unreachable_witness :
    (Create d0 envAllDown).2.1 = some CreateError.unreachable ∧
    (Create d0 envAllDown).2.2.probed = ["10.31.128.1", "10.31.128.2", "10.31.128.3"] ∧
    (Create d0 envAllDown).2.2.keyGenCalled = false ∧
    (Create d0 envAllDown).2.2.sshCommands = [] := by
  have h := create_all_unreachable d0 envAllDown payloadABC rfl
    (by decide) rfl (fun ip _ => rfl)
  simpa using h

/-- C5: when the lookup succeeds but yields no `ipAddress` value,
`Create` returns the no-addresses error and performs no TCP probe. -/
theorem create_no_addresses_no_probe (d : Driver) (env : Env) (payload : List Record)
    (h1 : env.lookupResult = Except.ok payload)
    (h2 : extractIPs payload = []) :
    (Create d env).2.1 = some CreateError.noAddresses ∧
    (Create d env).2.2.probed = [] := by
  unfold Create
  rw [h1]
  simp [h2]

/-- C5 (witness): a payload of a non-map entry and a map without the
`ipAddress` key yields the no-addresses error with no probe. -/
theorem create_no_addresses_no_probe_witness :
    (Create d0 envNoIP).2.1 = some CreateError.noAddresses ∧
    (Create d0 envNoIP).2.2.probed = [] :=
  create_no_addresses_no_probe d0 envNoIP payloadNoIP rfl rfl

/-- C6: whenever `SetConfigFromFlags` succeeds, a configured SSH port of
443 forces `Transport` to `"https"` regardless of the transport flag;
any other port leaves `Transport` equal to the transport flag. -/
theorem setConfigFromFlags_port443_transport (d : Driver) (flags : DriverOptions)
    (h : (SetConfigFromFlags d flags).2 = none) :
    (flags.rackhdSshPort = 443 →
      (SetConfigFromFlags d flags).1.Transport = "https") ∧
    (flags.rackhdSshPort ≠ 443 →
      (SetConfigFromFlags d flags).1.Transport = flags.rackhdTransport) := by
  by_cases hn : flags.rackhdNodeId = ""
  · simp [SetConfigFromFlags, hn] at h
  · by_cases hp : flags.rackhdSshPort = 443 <;>
      simp [SetConfigFromFlags, hn, hp]

/-- C6 (witness): port 443 with transport flag `"http"` still yields
`Transport = "https"`. -/
theorem setConfigFromFlags_port443_transport_witness :
    (SetConfigFromFlags (NewDriver "m" "/tmp/machine") flags443).1.Transport = "https" :=
  (setConfigFromFlags_port443_transport (NewDriver "m" "/tmp/machine") flags443 rfl).1 rfl

/-- C7: `GetURL` returns `tcp://<ip>:2376` (fixed port 2376) exactly
when the driver's IP address is set, and the "IP address is not set"
error — never a URL — when it is empty. -/
theorem getURL_format_and_error (d : Driver) :
    (d.IPAddress ≠ "" →
      GetURL d = Except.ok ("tcp://" ++ d.IPAddress ++ ":2376")) ∧
    (d.IPAddress = "" →
      GetURL d = Except.error "IP address is not set") := by
  by_cases h : d.IPAddress = "" <;> simp [GetURL, GetIP, h]

/-- C7 (witness): for resolved IP `10.0.0.5` the URL is
`tcp://10.0.0.5:2376`; for the unresolved fresh driver, the "not set"
error. -/
theorem getURL_format_and_error_witness :
    GetURL { NewDriver "m" "/tmp/machine" with IPAddress := "10.0.0.5" }
        = Except.ok "tcp://10.0.0.5:2376" ∧
    GetURL (NewDriver "m" "/tmp/machine")
        = Except.error "IP address is not set" :=
  ⟨((getURL_format_and_error
      { NewDriver "m" "/tmp/machine" with IPAddress := "10.0.0.5" }).1
        (by decide)).trans rfl,
   (getURL_format_and_error (NewDriver "m" "/tmp/machine")).2 rfl⟩

/-- C8: once the resolved IP is set, none of the lifecycle operations
(`GetIP`, `GetURL`, `GetSSHHostname`, `GetState`, `Start`, `Stop`,
`Restart`, `Kill`, `Remove`) modifies the `IPAddress` field: they only
read it. -/
theorem lifecycle_preserves_ipAddress (d : Driver) (_h : d.IPAddress ≠ "") :
    (GetIPM d).1.IPAddress = d.IPAddress ∧
    (GetURLM d).1.IPAddress = d.IPAddress ∧
    (GetSSHHostnameM d).1.IPAddress = d.IPAddress ∧
    (GetState d).1.IPAddress = d.IPAddress ∧
    (Start d).1.IPAddress = d.IPAddress ∧
    (Stop d).1.IPAddress = d.IPAddress ∧
    (Restart d).1.IPAddress = d.IPAddress ∧
    (Kill d).1.IPAddress = d.IPAddress ∧
    (Remove d).1.IPAddress = d.IPAddress :=
  ⟨rfl, rfl, rfl, rfl, rfl, rfl, rfl, rfl, rfl⟩

/-- C8 (witness): on a driver resolved to `10.0.0.5`, `Start` leaves the
IP untouched. -/
theorem lifecycle_preserves_ipAddress_witness :
    (Start { NewDriver "m" "/tmp/machine" with IPAddress := "10.0.0.5" }).1.IPAddress
      = "10.0.0.5" :=
  (lifecycle_preserves_ipAddress
    { NewDriver "m" "/tmp/machine" with IPAddress := "10.0.0.5" }
    (by decide)).2.2.2.2.1

/-- C9: `Start`, `Stop`, `Restart`, `Kill` and `Remove` return success on
every driver state, and `GetState` always returns the fixed `Running`
state with no error. -/
theorem lifecycle_stubs_always_succeed (d : Driver) :
    (Start d).2 = none ∧
    (Stop d).2 = none ∧
    (Restart d).2 = none ∧
    (Kill d).2 = none ∧
    (Remove d).2 = none ∧
    (GetState d).2.1 = MachineState.Running ∧
    (GetState d).2.2 = none :=
  ⟨rfl, rfl, rfl, rfl, rfl, rfl, rfl⟩

/-- C10: when the node-id flag is missing, `SetConfigFromFlags` returns
the missing-node-identifier error with the driver partially updated:
`Endpoint` already reassigned from the flags and `NodeID` set to the
empty string, while `SSHUser`, `SSHPassword`, `SSHPort` and `Transport`
keep their prior values. -/
theorem setConfigFromFlags_partial_update_on_error (d : Driver) (flags : DriverOptions)
    (h : flags.rackhdNodeId = "") :
    (SetConfigFromFlags d flags).2
        = some "rackhd driver requires the --rackhd-node-id option" ∧
    (SetConfigFromFlags d flags).1.Endpoint = flags.rackhdEndpoint ∧
    (SetConfigFromFlags d flags).1.NodeID = "" ∧
    (SetConfigFromFlags d flags).1.SSHUser = d.SSHUser ∧
    (SetConfigFromFlags d flags).1.SSHPassword = d.SSHPassword ∧
    (SetConfigFromFlags d flags).1.SSHPort = d.SSHPort ∧
    (SetConfigFromFlags d flags).1.Transport = d.Transport := by
  simp [SetConfigFromFlags, h]

/-- C10 (witness): on a fresh driver and `flagsNoNode`, the endpoint is
taken from the flags while the SSH and transport fields keep the
defaults. -/
theorem setConfigFromFlags_partial_update_on_error_witness :
    (SetConfigFromFlags d0 flagsNoNode).2
        = some "rackhd driver requires the --rackhd-node-id option" ∧
    (SetConfigFromFlags d0 flagsNoNode).1.Endpoint = "rackhd.example.com:8080" ∧
    (SetConfigFromFlags d0 flagsNoNode).1.NodeID = "" ∧
    (SetConfigFromFlags d0 flagsNoNode).1.SSHUser = "root" ∧
    (SetConfigFromFlags d0 flagsNoNode).1.SSHPassword = "root" ∧
    (SetConfigFromFlags d0 flagsNoNode).1.SSHPort = 22 ∧
    (SetConfigFromFlags d0 flagsNoNode).1.Transport = "http" := by
  have h := setConfigFromFlags_partial_update_on_error d0 flagsNoNode rfl
  simpa using h

end RackHD
